import Mathlib

/-!
Verification of the HTTP wrapper in `app.py` of the Video_Generator
repository.  The wrapper validates request shapes, resolves API keys
(request body or a local `secret.json`), computes which character
reference images are required per scene, and delegates to external
generation functions (`generate_character_references`,
`generate_scene_videos`, `stitch_videos`, imported from the missing
module `generate`).

The shallow embedding below models:
  * the filesystem as a predicate `String → Bool` (path existence);
  * the `secret.json` file as an inductive `SecretState` describing the
    three observable states the Python code distinguishes (absent,
    present-but-unparseable, parsed JSON object);
  * Python dictionaries carrying reference maps as insertion-ordered
    association lists;
  * the external delegate functions as function parameters returning
    `Except DelegateError _`, where `DelegateError.valueError` stands
    for a Python `ValueError` and `DelegateError.otherError` for any
    other exception;
  * `fastapi.HTTPException` as a structure carrying status code and
    detail string.
-/

/-- Model of `fastapi.HTTPException`: a status code plus a detail string. -/
structure HTTPException where
  status_code : Nat
  detail : String
deriving Repr, DecidableEq

/-- Outcome of an external delegate call: a Python `ValueError` (invalid
input) or any other exception, each carrying `str(exc)`. -/
inductive DelegateError where
  | valueError (msg : String)
  | otherError (msg : String)
deriving Repr, DecidableEq

/-- Model of pydantic `CharacterDesign` (app.py lines 30-32). -/
structure CharacterDesign where
  character_name : String
  image_generation_prompt : String
deriving Repr, DecidableEq

/-- Model of pydantic `Scene` (app.py lines 35-42). -/
structure Scene where
  scene_number : Int
  scene_type : String
  duration_seconds : Int
  start_frame_prompt : String
  end_frame_prompt : String
  video_prompt : String
  reference_images : List String
deriving Repr, DecidableEq

/-- A Python dict mapping character name to reference-image path,
modelled as an insertion-ordered association list. -/
abbrev RefMap := List (String × String)

/-- Python `char in d` key-membership test on a dict. -/
def hasKey (m : RefMap) (c : String) : Bool :=
  m.any (fun p => p.1 == c)

/-- Model of `CharacterReferenceRequest` (app.py lines 45-50). -/
structure CharacterReferenceRequest where
  character_designs : List CharacterDesign
  image_api_key : Option String := none
deriving Repr, DecidableEq

/-- Model of `CharacterReferenceResponse` (app.py lines 53-54). -/
structure CharacterReferenceResponse where
  character_refs : RefMap
deriving Repr, DecidableEq

/-- Model of `SceneVideoRequest` (app.py lines 57-69); `character_refs`
is optional with default `None` and `autoload_refs` defaults to true. -/
structure SceneVideoRequest where
  scenes : List Scene
  image_api_key : Option String := none
  veo_api_key : Option String := none
  character_refs : Option RefMap := none
  autoload_refs : Bool := true
deriving Repr, DecidableEq

/-- Model of `SceneVideoResponse` (app.py lines 72-73). -/
structure SceneVideoResponse where
  video_paths : List String
deriving Repr, DecidableEq

/-- Model of `TrailerGenerationRequest` (app.py lines 76-84). -/
structure TrailerGenerationRequest where
  character_designs : List CharacterDesign
  scenes : List Scene
  image_api_key : Option String := none
  veo_api_key : Option String := none
  stitch_trailer : Bool := true
deriving Repr, DecidableEq

/-- Model of `TrailerGenerationResponse` (app.py lines 87-90). -/
structure TrailerGenerationResponse where
  character_refs : RefMap
  scene_videos : List String
  trailer_path : Option String
deriving Repr, DecidableEq

/-- Observable states of the `secret.json` file, as distinguished by
`_load_default_api_key`: the file is absent; it exists but
`json.loads` fails (carrying `str(exc)`); or it parses to a JSON
object whose optional `project_api_key` field is carried here. -/
inductive SecretState where
  | absent
  | malformed (errMsg : String)
  | parsed (project_api_key : Option String)
deriving Repr, DecidableEq

/-- Python truthiness of an `Optional[str]`: `None` and `""` are falsy. -/
def pyTruthy : Option String → Bool
  | none => false
  | some s => !s.isEmpty

/-- Python `a or b` on two `Optional[str]` values. -/
def pyOrOpt (a b : Option String) : Option String :=
  if pyTruthy a then a else b

/-- Embedding of `_load_default_api_key` (app.py lines 93-101): absent
file yields `None`; a JSON parse failure raises a 500 `HTTPException`;
otherwise `payload.get("project_api_key")` is returned. -/
def _load_default_api_key (secret : SecretState) : Except HTTPException (Option String) :=
  match secret with
  | .absent => .ok none
  | .malformed errMsg => .error ⟨500, "Invalid secret.json format: " ++ errMsg⟩
  | .parsed project_api_key => .ok project_api_key

/-- Embedding of `_resolve_api_key` (app.py lines 104-111):
`api_key = provided or _load_default_api_key()`; if the result is falsy
a 400 `HTTPException` naming `key_name` is raised. The secret file is
only read when `provided` is falsy, as in the source. -/
def _resolve_api_key (secret : SecretState) (provided : Option String)
    (key_name : String) : Except HTTPException String :=
  if pyTruthy provided then .ok (provided.getD "")
  else
    match _load_default_api_key secret with
    | .error e => .error e
    | .ok default_key =>
      if pyTruthy default_key then .ok (default_key.getD "")
      else .error ⟨400, key_name ++ " is required. Provide it in the request body or secret.json."⟩

/-- One iteration of the inner loop of `_collect_referenced_characters`
(app.py lines 117-121): the accumulator is the pair
`(referenced, seen)`; the Python `set` is modelled as a list queried by
membership. -/
def collectStep (acc : List String × List String) (character : String) :
    List String × List String :=
  if character ∈ acc.2 then acc
  else (acc.1 ++ [character], acc.2 ++ [character])

/-- Embedding of `_collect_referenced_characters` (app.py lines
114-122): the nested for-loops are the nested folds. -/
def _collect_referenced_characters (scenes : List Scene) : List String :=
  (scenes.foldl (fun acc scene => scene.reference_images.foldl collectStep acc)
    ([], [])).1

/-- Modelled from the spec: `OUTPUT_DIR` is imported from the missing
module `generate`; the spec fixes it as the output root whose `refs/`
subdirectory holds `<character_name>.png` reference images, and the
request-schema documentation in app.py names it `output`. -/
def OUTPUT_DIR : String := "output"

/-- The derived expected path `OUTPUT_DIR / "refs" / f"{character}.png"`
of app.py line 154, rendered as a string as `str(ref_path)` does. -/
def refPath (character : String) : String :=
  OUTPUT_DIR ++ "/refs/" ++ character ++ ".png"

/-- The autoload loop of `_build_character_ref_map` (app.py lines
152-161): probe each referenced character at its derived path, failing
fast with a 400 on the first missing file, otherwise accumulating the
mapping in traversal order. -/
def autoloadLoop (fs : String → Bool) (refs : RefMap) :
    List String → Except HTTPException RefMap
  | [] => .ok refs
  | character :: rest =>
    if fs (refPath character) then
      autoloadLoop fs (refs ++ [(character, refPath character)]) rest
    else
      .error ⟨400, "Reference image not found for \x27" ++ character ++ "\x27 at "
        ++ refPath character⟩

/-- The branches of `_build_character_ref_map` taken when
`provided_refs` is Python-falsy (app.py lines 143-161). -/
def _build_no_provided (fs : String → Bool) (scenes : List Scene)
    (autoload_refs : Bool) : Except HTTPException RefMap :=
  if !autoload_refs then
    if (_collect_referenced_characters scenes).isEmpty then .ok []
    else .error ⟨400, "Reference images required but no character_refs provided."⟩
  else
    autoloadLoop fs [] (_collect_referenced_characters scenes)

/-- Embedding of `_build_character_ref_map` (app.py lines 125-161).
`if provided_refs:` is Python dict truthiness: `None` and the empty
dict both fall through to the no-provided branches. -/
def _build_character_ref_map (fs : String → Bool) (scenes : List Scene)
    (provided_refs : Option RefMap) (autoload_refs : Bool) :
    Except HTTPException RefMap :=
  match provided_refs with
  | none => _build_no_provided fs scenes autoload_refs
  | some m =>
    if m.isEmpty then _build_no_provided fs scenes autoload_refs
    else
      let provided_missing :=
        (_collect_referenced_characters scenes).filter (fun c => !hasKey m c)
      if provided_missing.isEmpty then .ok m
      else
        .error ⟨400, "Missing reference paths for: "
          ++ String.intercalate ", " provided_missing⟩

/-- All character names referenced by the scenes, scene order first,
within-scene order second, duplicates kept. -/
def allRefs (scenes : List Scene) : List String :=
  (scenes.map Scene.reference_images).flatten

/-- First-occurrence deduplication relative to an already-seen set,
mirroring the accumulator discipline of the collector loop. -/
def dedupSeen (seen : List String) : List String → List String
  | [] => []
  | a :: l =>
    if a ∈ seen then dedupSeen seen l
    else a :: dedupSeen (seen ++ [a]) l

/-- Specification-side definition, following the words of the spec:
each distinct name is emitted exactly once, at the position of its
first occurrence (stable, insertion-ordered deduplication). -/
def specFirstOccurrenceDedup : List String → List String
  | [] => []
  | a :: l => a :: specFirstOccurrenceDedup (l.filter (fun b => !(decide (b = a))))
termination_by l => l.length
decreasing_by
  simp only [List.length_cons]
  exact Nat.lt_succ_of_le (List.length_filter_le _ _)

/-- Does the reference map cover every character referenced by the
scenes? (The invariant of spec section 3.) -/
def refMapCovers (scenes : List Scene) (refs : RefMap) : Bool :=
  (_collect_referenced_characters scenes).all (fun c => hasKey refs c)

/-- Sentinel message used by the probing delegate below; distinct from
every message the wrapper itself produces. -/
def probeMsg : String := "scene video delegate invoked with unmapped character reference"

/-- A probing scene-video delegate: it reports, via a delegate-time
`ValueError` carrying `probeMsg`, exactly the situation the invariant
claim rules out (being invoked with a reference map that misses a
referenced character), and succeeds otherwise. -/
def gsvProbe : String → String → List Scene → RefMap → Except DelegateError (List String) :=
  fun _ _ scenes refs =>
    if refMapCovers scenes refs then .ok [] else .error (.valueError probeMsg)

/-- The video-key claim as stated: the video key falls back to the
resolved image key exactly when its own override and the secret-file
default are both absent; hence with the override absent but a
non-empty default present, the resolved video key must be that
default. -/
def videoKeyClaimAsStated : Prop :=
  ∀ (default_key : String) (veo image : Option String),
    default_key ≠ "" → pyTruthy veo = false →
    _resolve_api_key (.parsed (some default_key)) (pyOrOpt veo image) "veo_api_key"
      = .ok default_key

/-- The key-resolver claim as stated: whenever the provided key is
falsy and no non-empty default key exists, the resolver raises a
client error with status 400. -/
def resolveClaimAsStated : Prop :=
  ∀ (secret : SecretState) (provided : Option String) (key_name : String),
    pyTruthy provided = false →
    (¬ ∃ d, _load_default_api_key secret = .ok (some d) ∧ d ≠ "") →
    ∃ msg, _resolve_api_key secret provided key_name = .error ⟨400, msg⟩

/-- A sample scene referencing the single character `X`. -/
def sceneRefX : Scene :=
  { scene_number := 1, scene_type := "action", duration_seconds := 8,
    start_frame_prompt := "start", end_frame_prompt := "end",
    video_prompt := "clip", reference_images := ["X"] }

/-- A sample scene with no referenced characters. -/
def sceneNoRefs : Scene :=
  { scene_number := 2, scene_type := "dialogue", duration_seconds := 4,
    start_frame_prompt := "start", end_frame_prompt := "end",
    video_prompt := "clip", reference_images := [] }

/-- A sample scene referencing the characters `A` and `B`. -/
def sceneRefAB : Scene :=
  { scene_number := 3, scene_type := "action", duration_seconds := 8,
    start_frame_prompt := "start", end_frame_prompt := "end",
    video_prompt := "clip", reference_images := ["A", "B"] }

/-- A sample scene referencing the characters `B` and `C`. -/
def sceneRefBC : Scene :=
  { scene_number := 4, scene_type := "action", duration_seconds := 8,
    start_frame_prompt := "start", end_frame_prompt := "end",
    video_prompt := "clip", reference_images := ["B", "C"] }

/-- A character-reference delegate that always succeeds with an empty
reference map (for instance on an empty design list). -/
def gcrEmptyOk : String → List CharacterDesign → Except DelegateError RefMap :=
  fun _ _ => .ok []

/-- A stitching delegate that always succeeds. -/
def stitchConst : List String → Except DelegateError String :=
  fun _ => .ok "output/trailer_no_audio.mp4"

/-- A scene-video delegate that always succeeds with no videos. -/
def gsvOkEmpty : String → String → List Scene → RefMap → Except DelegateError (List String) :=
  fun _ _ _ _ => .ok []

/-- A trailer request whose scenes reference the character `X` while
the design list is empty; both API keys are supplied in the body. -/
def trailerReqX : TrailerGenerationRequest :=
  { character_designs := [], scenes := [sceneRefX],
    image_api_key := some "imgkey", veo_api_key := some "veokey",
    stitch_trailer := false }

/-- A scene-video request referencing `X` with an explicit singleton
reference map covering it. -/
def sceneReqX : SceneVideoRequest :=
  { scenes := [sceneRefX], image_api_key := some "imgkey",
    veo_api_key := none, character_refs := some [("X", "output/refs/X.png")],
    autoload_refs := true }

/-- A scene-video request referencing `A` and `B` with an explicitly
empty reference map and autoload enabled. -/
def sceneReqEmptyRefs : SceneVideoRequest :=
  { scenes := [sceneRefAB], image_api_key := some "imgkey",
    veo_api_key := none, character_refs := some [], autoload_refs := true }

/-- Embedding of the route handler `create_character_references`
(app.py lines 169-182), parametrised by the external delegate
`generate_character_references`. The try/except maps a `ValueError`
to a 400 and any other exception to a 500, both carrying `str(exc)`. -/
def create_character_references
    (generate_character_references :
      String → List CharacterDesign → Except DelegateError RefMap)
    (secret : SecretState) (request : CharacterReferenceRequest) :
    Except HTTPException CharacterReferenceResponse :=
  match _resolve_api_key secret request.image_api_key "image_api_key" with
  | .error e => .error e
  | .ok image_api_key =>
    match generate_character_references image_api_key request.character_designs with
    | .error (.valueError m) => .error ⟨400, m⟩
    | .error (.otherError m) => .error ⟨500, m⟩
    | .ok character_refs => .ok ⟨character_refs⟩

/-- Embedding of the route handler `create_scene_videos` (app.py lines
185-207), parametrised by the filesystem and the external delegate
`generate_scene_videos`.  Note line 188: the video key is resolved from
`request.veo_api_key or request.image_api_key`. -/
def create_scene_videos
    (generate_scene_videos :
      String → String → List Scene → RefMap → Except DelegateError (List String))
    (fs : String → Bool) (secret : SecretState) (request : SceneVideoRequest) :
    Except HTTPException SceneVideoResponse :=
  match _resolve_api_key secret request.image_api_key "image_api_key" with
  | .error e => .error e
  | .ok image_api_key =>
    match _resolve_api_key secret (pyOrOpt request.veo_api_key request.image_api_key)
        "veo_api_key" with
    | .error e => .error e
    | .ok veo_api_key =>
      match _build_character_ref_map fs request.scenes request.character_refs
          request.autoload_refs with
      | .error e => .error e
      | .ok character_refs =>
        match generate_scene_videos image_api_key veo_api_key request.scenes
            character_refs with
        | .error (.valueError m) => .error ⟨400, m⟩
        | .error (.otherError m) => .error ⟨500, m⟩
        | .ok videos => .ok ⟨videos⟩

/-- Embedding of the route handler `generate_trailer` (app.py lines
210-241), parametrised by the three external delegates.  The character
reference map passed to `generate_scene_videos` is the verbatim output
of `generate_character_references`; no reference-map validation is
performed by this handler. -/
def generate_trailer
    (generate_character_references :
      String → List CharacterDesign → Except DelegateError RefMap)
    (generate_scene_videos :
      String → String → List Scene → RefMap → Except DelegateError (List String))
    (stitch_videos : List String → Except DelegateError String)
    (secret : SecretState) (request : TrailerGenerationRequest) :
    Except HTTPException TrailerGenerationResponse :=
  match _resolve_api_key secret request.image_api_key "image_api_key" with
  | .error e => .error e
  | .ok image_api_key =>
    match _resolve_api_key secret (pyOrOpt request.veo_api_key request.image_api_key)
        "veo_api_key" with
    | .error e => .error e
    | .ok veo_api_key =>
      match generate_character_references image_api_key request.character_designs with
      | .error (.valueError m) => .error ⟨400, m⟩
      | .error (.otherError m) => .error ⟨500, m⟩
      | .ok character_refs =>
        match generate_scene_videos image_api_key veo_api_key request.scenes
            character_refs with
        | .error (.valueError m) => .error ⟨400, m⟩
        | .error (.otherError m) => .error ⟨500, m⟩
        | .ok scene_paths =>
          if request.stitch_trailer then
            match stitch_videos scene_paths with
            | .error (.valueError m) => .error ⟨400, m⟩
            | .error (.otherError m) => .error ⟨500, m⟩
            | .ok trailer_path => .ok ⟨character_refs, scene_paths, some trailer_path⟩
          else
            .ok ⟨character_refs, scene_paths, none⟩

/-- The invariant claim as stated, specialised to the trailer route:
if every violation were surfaced by the wrapper as a client error
before the scene-video delegate call, the probing delegate could never
produce its delegate-time failure, whatever the other delegates, the
secret file or the request are. -/
def trailerDelegateGuardClaim : Prop :=
  ∀ (gcr : String → List CharacterDesign → Except DelegateError RefMap)
    (stitch : List String → Except DelegateError String)
    (secret : SecretState) (request : TrailerGenerationRequest),
    generate_trailer gcr gsvProbe stitch secret request ≠ .error ⟨400, probeMsg⟩

/-! ## Collector lemmas -/

theorem foldl_collectStep (l : List String) (referenced seen : List String) :
    l.foldl collectStep (referenced, seen)
      = (referenced ++ dedupSeen seen l, seen ++ dedupSeen seen l) := by
  induction l generalizing referenced seen with
  | nil => simp [dedupSeen]
  | cons a l ih =>
    by_cases h : a ∈ seen <;>
      simp [List.foldl_cons, collectStep, h, dedupSeen, ih, List.append_assoc]

theorem collect_eq_dedupSeen (scenes : List Scene) :
    _collect_referenced_characters scenes = dedupSeen [] (allRefs scenes) := by
  have h : ∀ (acc : List String × List String),
      scenes.foldl (fun acc scene => scene.reference_images.foldl collectStep acc) acc
        = (allRefs scenes).foldl collectStep acc := by
    induction scenes with
    | nil => intro acc; simp [allRefs]
    | cons s rest ih =>
      intro acc
      rw [List.foldl_cons, ih]
      simp [allRefs, List.foldl_append]
  unfold _collect_referenced_characters
  rw [h, foldl_collectStep]
  simp

theorem dedupSeen_eq_spec (l : List String) : ∀ (seen : List String),
    dedupSeen seen l
      = specFirstOccurrenceDedup (l.filter (fun b => !(decide (b ∈ seen)))) := by
  induction l with
  | nil => intro seen; simp [dedupSeen, specFirstOccurrenceDedup]
  | cons a l ih =>
    intro seen
    by_cases h : a ∈ seen
    · simp [dedupSeen, h, List.filter_cons, ih]
    · have hfc : (a :: l).filter (fun b => !(decide (b ∈ seen)))
          = a :: l.filter (fun b => !(decide (b ∈ seen))) := by
        simp [List.filter_cons, h]
      rw [hfc]
      simp only [dedupSeen, if_neg h]
      rw [specFirstOccurrenceDedup]
      congr 1
      rw [ih (seen ++ [a]), List.filter_filter]
      congr 1
      apply List.filter_congr
      intro b _
      by_cases hb : b = a <;> by_cases hbs : b ∈ seen <;>
        simp [List.mem_append, hb, hbs]

theorem collect_eq_spec (scenes : List Scene) :
    _collect_referenced_characters scenes
      = specFirstOccurrenceDedup (allRefs scenes) := by
  rw [collect_eq_dedupSeen, dedupSeen_eq_spec]
  congr 1
  simp

theorem mem_specFOD (l : List String) :
    ∀ x, x ∈ specFirstOccurrenceDedup l ↔ x ∈ l := by
  induction l using specFirstOccurrenceDedup.induct with
  | case1 => simp [specFirstOccurrenceDedup]
  | case2 a l ih =>
    intro x
    rw [specFirstOccurrenceDedup]
    simp only [List.mem_cons, ih, List.mem_filter]
    by_cases hx : x = a <;> simp [hx]

theorem nodup_specFOD (l : List String) :
    (specFirstOccurrenceDedup l).Nodup := by
  induction l using specFirstOccurrenceDedup.induct with
  | case1 => simp [specFirstOccurrenceDedup]
  | case2 a l ih =>
    rw [specFirstOccurrenceDedup]
    refine List.nodup_cons.mpr ⟨?_, ih⟩
    intro hmem
    rw [mem_specFOD] at hmem
    simp [List.mem_filter] at hmem

theorem mem_collect (scenes : List Scene) (c : String) :
    c ∈ _collect_referenced_characters scenes
      ↔ ∃ s ∈ scenes, c ∈ s.reference_images := by
  rw [collect_eq_spec, mem_specFOD]
  simp [allRefs]

theorem collect_eq_nil (scenes : List Scene)
    (h : ∀ s ∈ scenes, s.reference_images = []) :
    _collect_referenced_characters scenes = [] := by
  rw [List.eq_nil_iff_forall_not_mem]
  intro c hc
  rw [mem_collect] at hc
  obtain ⟨s, hs, hcs⟩ := hc
  rw [h s hs] at hcs
  exact List.not_mem_nil _ hcs

/-! ## Reference map builder lemmas -/

theorem autoloadLoop_ok (fs : String → Bool) (l : List String) :
    ∀ (acc : RefMap), (∀ c ∈ l, fs (refPath c) = true) →
      autoloadLoop fs acc l = .ok (acc ++ l.map (fun c => (c, refPath c))) := by
  induction l with
  | nil => intro acc _; simp [autoloadLoop]
  | cons c rest ih =>
    intro acc h
    have hc : fs (refPath c) = true := h c (by simp)
    simp only [autoloadLoop, hc, if_true]
    rw [ih _ (fun d hd => h d (by simp [hd]))]
    simp

theorem autoloadLoop_err (fs : String → Bool) (l : List String) :
    ∀ (acc : RefMap) (c₀ : String),
      l.find? (fun c => !fs (refPath c)) = some c₀ →
      autoloadLoop fs acc l
        = .error ⟨400, "Reference image not found for \x27" ++ c₀ ++ "\x27 at "
            ++ refPath c₀⟩ := by
  induction l with
  | nil => intro acc c₀ h; simp [List.find?] at h
  | cons c rest ih =>
    intro acc c₀ h
    by_cases hc : fs (refPath c) = true
    · have hb : (!fs (refPath c)) = false := by simp [hc]
      simp only [List.find?_cons, hb] at h
      simp only [autoloadLoop, hc, if_true]
      exact ih _ _ h
    · have hcf : fs (refPath c) = false := by
        simpa [Bool.not_eq_true] using hc
      have hb : (!fs (refPath c)) = true := by simp [hcf]
      simp only [List.find?_cons, hb] at h
      obtain rfl : c = c₀ := by simpa using h
      simp [autoloadLoop, hcf]

theorem autoloadLoop_ok_inv (fs : String → Bool) (l : List String) :
    ∀ (acc refs : RefMap), autoloadLoop fs acc l = .ok refs →
      refs = acc ++ l.map (fun c => (c, refPath c)) := by
  induction l with
  | nil =>
    intro acc refs h
    simp only [autoloadLoop] at h
    simp [← Except.ok.inj h]
  | cons c rest ih =>
    intro acc refs h
    by_cases hc : fs (refPath c) = true
    · simp only [autoloadLoop, hc, if_true] at h
      simpa [List.append_assoc] using ih _ _ h
    · simp [autoloadLoop, hc] at h

theorem autoloadLoop_error_status (fs : String → Bool) (l : List String) :
    ∀ (acc : RefMap) (e : HTTPException),
      autoloadLoop fs acc l = .error e → e.status_code = 400 := by
  induction l with
  | nil => intro acc e h; simp [autoloadLoop] at h
  | cons c rest ih =>
    intro acc e h
    by_cases hc : fs (refPath c) = true
    · simp only [autoloadLoop, hc, if_true] at h
      exact ih _ _ h
    · simp only [autoloadLoop, hc, if_false, Bool.false_eq_true, reduceIte] at h
      rw [← Except.error.inj h]

theorem build_provided_ok (fs : String → Bool) (scenes : List Scene) (m : RefMap)
    (autoload : Bool) (hm : m.isEmpty = false)
    (hcov : ∀ c ∈ _collect_referenced_characters scenes, hasKey m c = true) :
    _build_character_ref_map fs scenes (some m) autoload = .ok m := by
  have hfil : (_collect_referenced_characters scenes).filter (fun c => !hasKey m c) = [] := by
    rw [List.filter_eq_nil_iff]
    intro c hc
    simp [hcov c hc]
  simp [_build_character_ref_map, hm, hfil]

theorem build_provided_missing (fs : String → Bool) (scenes : List Scene) (m : RefMap)
    (autoload : Bool) (hm : m.isEmpty = false)
    (hmiss : (_collect_referenced_characters scenes).filter (fun c => !hasKey m c) ≠ []) :
    _build_character_ref_map fs scenes (some m) autoload
      = .error ⟨400, "Missing reference paths for: "
          ++ String.intercalate ", "
            ((_collect_referenced_characters scenes).filter (fun c => !hasKey m c))⟩ := by
  have he : ((_collect_referenced_characters scenes).filter (fun c => !hasKey m c)).isEmpty
      = false := by
    rwa [ne_eq, ← List.isEmpty_iff, Bool.not_eq_true] at hmiss
  simp [_build_character_ref_map, hm, he]

theorem build_none_no_autoload_err (fs : String → Bool) (scenes : List Scene)
    (h : _collect_referenced_characters scenes ≠ []) :
    _build_character_ref_map fs scenes none false
      = .error ⟨400, "Reference images required but no character_refs provided."⟩ := by
  have he : (_collect_referenced_characters scenes).isEmpty = false := by
    rwa [ne_eq, ← List.isEmpty_iff, Bool.not_eq_true] at h
  simp [_build_character_ref_map, _build_no_provided, he]

theorem build_none_no_autoload_ok (fs : String → Bool) (scenes : List Scene)
    (h : _collect_referenced_characters scenes = []) :
    _build_character_ref_map fs scenes none false = .ok [] := by
  simp [_build_character_ref_map, _build_no_provided, h]

theorem build_none_autoload (fs : String → Bool) (scenes : List Scene) :
    _build_character_ref_map fs scenes none true
      = autoloadLoop fs [] (_collect_referenced_characters scenes) := by
  simp [_build_character_ref_map, _build_no_provided]

theorem build_no_provided_ok_covers (fs : String → Bool) (scenes : List Scene)
    (autoload : Bool) (refs : RefMap)
    (hnp : _build_no_provided fs scenes autoload = .ok refs) :
    ∀ c ∈ _collect_referenced_characters scenes, hasKey refs c = true := by
  intro c hc
  cases autoload with
  | false =>
    have he : (_collect_referenced_characters scenes).isEmpty = false := by
      rw [Bool.eq_false_iff, ne_eq, List.isEmpty_iff]
      intro hnil
      rw [hnil] at hc
      exact List.not_mem_nil _ hc
    simp [_build_no_provided, he] at hnp
  | true =>
    simp only [_build_no_provided, Bool.not_true, Bool.false_eq_true, if_false] at hnp
    have hrefs := autoloadLoop_ok_inv fs _ [] refs hnp
    rw [hrefs]
    simp only [List.nil_append, hasKey, List.any_eq_true]
    exact ⟨(c, refPath c), List.mem_map_of_mem _ hc, by simp⟩

theorem build_ok_covers (fs : String → Bool) (scenes : List Scene)
    (provided : Option RefMap) (autoload : Bool) (refs : RefMap)
    (h : _build_character_ref_map fs scenes provided autoload = .ok refs) :
    ∀ c ∈ _collect_referenced_characters scenes, hasKey refs c = true := by
  cases provided with
  | none => exact build_no_provided_ok_covers fs scenes autoload refs h
  | some m =>
    by_cases hm : m.isEmpty = true
    · simp only [_build_character_ref_map, hm, if_true] at h
      exact build_no_provided_ok_covers fs scenes autoload refs h
    · have hm2 : m.isEmpty = false := by rwa [Bool.eq_false_iff, ne_eq]
      simp only [_build_character_ref_map, hm2, Bool.false_eq_true, if_false] at h
      by_cases hf : ((_collect_referenced_characters scenes).filter
          (fun c => !hasKey m c)).isEmpty = true
      · simp only [hf, if_true] at h
        intro c hc
        have hfil := List.isEmpty_iff.mp hf
        rw [List.filter_eq_nil_iff] at hfil
        have := hfil c hc
        rw [← Except.ok.inj h]
        simpa using this
      · have hf2 : ((_collect_referenced_characters scenes).filter
            (fun c => !hasKey m c)).isEmpty = false := by rwa [Bool.eq_false_iff, ne_eq]
        simp [hf2] at h

theorem build_error_status (fs : String → Bool) (scenes : List Scene)
    (provided : Option RefMap) (autoload : Bool) (e : HTTPException)
    (h : _build_character_ref_map fs scenes provided autoload = .error e) :
    e.status_code = 400 := by
  have main : _build_no_provided fs scenes autoload = .error e → e.status_code = 400 := by
    intro hnp
    cases autoload with
    | false =>
      by_cases he : (_collect_referenced_characters scenes).isEmpty = true
      · simp [_build_no_provided, he] at hnp
      · have he2 : (_collect_referenced_characters scenes).isEmpty = false := by
          rwa [Bool.eq_false_iff, ne_eq]
        simp only [_build_no_provided, Bool.not_false, if_true, he2,
          Bool.false_eq_true, if_false] at hnp
        rw [← Except.error.inj hnp]
    | true =>
      simp only [_build_no_provided, Bool.not_true, Bool.false_eq_true, if_false] at hnp
      exact autoloadLoop_error_status fs _ [] e hnp
  cases provided with
  | none => exact main h
  | some m =>
    by_cases hm : m.isEmpty = true
    · simp only [_build_character_ref_map, hm, if_true] at h
      exact main h
    · have hm2 : m.isEmpty = false := by rwa [Bool.eq_false_iff, ne_eq]
      simp only [_build_character_ref_map, hm2, Bool.false_eq_true, if_false] at h
      by_cases hf : ((_collect_referenced_characters scenes).filter
          (fun c => !hasKey m c)).isEmpty = true
      · simp [hf] at h
      · have hf2 : ((_collect_referenced_characters scenes).filter
            (fun c => !hasKey m c)).isEmpty = false := by rwa [Bool.eq_false_iff, ne_eq]
        simp only [hf2, Bool.false_eq_true, if_false] at h
        rw [← Except.error.inj h]

/-! ## Claim theorems: collector and reference map builder -/

theorem collector_spec_example :
    _collect_referenced_characters [sceneRefAB, sceneRefBC] = ["A", "B", "C"] := by
  decide

/-- Claim C2: for every list of scenes, `_collect_referenced_characters`
returns exactly the distinct character names occurring in some scene's
`reference_images`, each emitted exactly once at its first-occurrence
position, traversing scenes and within-scene reference lists in input
order (stable insertion-ordered deduplication, not sorted); an empty
scene list or scenes with no references yield the empty list. -/
theorem collector_first_occurrence_dedup (scenes : List Scene) :
    _collect_referenced_characters scenes = specFirstOccurrenceDedup (allRefs scenes)
    ∧ (_collect_referenced_characters scenes).Nodup
    ∧ (∀ a, a ∈ _collect_referenced_characters scenes
        ↔ ∃ s ∈ scenes, a ∈ s.reference_images)
    ∧ ((∀ s ∈ scenes, s.reference_images = [])
        → _collect_referenced_characters scenes = []) := by
  refine ⟨collect_eq_spec scenes, ?_, fun a => mem_collect scenes a, collect_eq_nil scenes⟩
  rw [collect_eq_spec]
  exact nodup_specFOD _

/-- Witness for claim C2 at concrete inputs: the spec example scenes
and a scene list with no references. -/
theorem collector_first_occurrence_dedup_witness :
    _collect_referenced_characters [sceneRefAB, sceneRefBC]
        = specFirstOccurrenceDedup (allRefs [sceneRefAB, sceneRefBC])
    ∧ _collect_referenced_characters [sceneNoRefs] = [] := by
  refine ⟨(collector_first_occurrence_dedup [sceneRefAB, sceneRefBC]).1, ?_⟩
  exact (collector_first_occurrence_dedup [sceneNoRefs]).2.2.2 (by
    intro s hs
    simp only [List.mem_singleton] at hs
    rw [hs]
    rfl)

/-- Claim C3: with a non-empty `provided_refs` map, if every referenced
character is a key then the builder returns the map unchanged (extra
entries for unreferenced names included); otherwise it fails with a
400 client error whose detail enumerates every missing referenced name
(comma-joined, in collector order), not just the first. -/
theorem provided_refs_validation (fs : String → Bool) (scenes : List Scene)
    (m : RefMap) (autoload : Bool) (hm : m.isEmpty = false) :
    ((∀ c ∈ _collect_referenced_characters scenes, hasKey m c = true) →
       _build_character_ref_map fs scenes (some m) autoload = .ok m)
    ∧ (∀ c, c ∈ (_collect_referenced_characters scenes).filter (fun c => !hasKey m c)
        ↔ (c ∈ _collect_referenced_characters scenes ∧ hasKey m c = false))
    ∧ ((_collect_referenced_characters scenes).filter (fun c => !hasKey m c) ≠ [] →
       _build_character_ref_map fs scenes (some m) autoload
         = .error ⟨400, "Missing reference paths for: "
             ++ String.intercalate ", "
               ((_collect_referenced_characters scenes).filter (fun c => !hasKey m c))⟩) := by
  refine ⟨build_provided_ok fs scenes m autoload hm, ?_,
    build_provided_missing fs scenes m autoload hm⟩
  intro c
  simp [List.mem_filter]

/-- Witness for claim C3 at concrete inputs: a covering map is returned
unchanged (extra entry included), and a map missing `B` fails naming
`B`. -/
theorem provided_refs_validation_witness :
    _build_character_ref_map (fun _ => true) [sceneRefAB]
        (some [("A", "pa"), ("B", "pb"), ("Extra", "pe")]) true
      = .ok [("A", "pa"), ("B", "pb"), ("Extra", "pe")]
    ∧ _build_character_ref_map (fun _ => true) [sceneRefAB]
        (some [("A", "pa")]) true
      = .error ⟨400, "Missing reference paths for: B"⟩ := by
  constructor
  · exact (provided_refs_validation (fun _ => true) [sceneRefAB]
      [("A", "pa"), ("B", "pb"), ("Extra", "pe")] true rfl).1 (by decide)
  · exact (provided_refs_validation (fun _ => true) [sceneRefAB]
      [("A", "pa")] true rfl).2.2 (by decide)

/-- Claim C4: with `provided_refs` absent and autoload true, the
builder returns exactly the referenced characters mapped to their
derived paths `OUTPUT_DIR/refs/<name>.png`, accumulated in collector
order, when every expected file exists; otherwise it fails fast with a
400 naming the first missing character (in collector order) and its
expected path. -/
theorem autoload_ref_map (fs : String → Bool) (scenes : List Scene) :
    ((∀ c ∈ _collect_referenced_characters scenes, fs (refPath c) = true) →
       _build_character_ref_map fs scenes none true
         = .ok ((_collect_referenced_characters scenes).map (fun c => (c, refPath c))))
    ∧ (∀ c₀, (_collect_referenced_characters scenes).find? (fun c => !fs (refPath c))
          = some c₀ →
       _build_character_ref_map fs scenes none true
         = .error ⟨400, "Reference image not found for \x27" ++ c₀ ++ "\x27 at "
             ++ refPath c₀⟩) := by
  constructor
  · intro h
    rw [build_none_autoload, autoloadLoop_ok fs _ [] h]
    simp
  · intro c₀ h
    rw [build_none_autoload, autoloadLoop_err fs _ [] c₀ h]

/-- Witness for claim C4 at concrete inputs: with both expected files
present the derived map is returned; with only `A`'s file present the
builder fails naming `B` and its expected path. -/
theorem autoload_ref_map_witness :
    _build_character_ref_map (fun _ => true) [sceneRefAB] none true
        = .ok [("A", "output/refs/A.png"), ("B", "output/refs/B.png")]
    ∧ _build_character_ref_map (fun p => p == refPath "A") [sceneRefAB] none true
        = .error ⟨400, "Reference image not found for \x27B\x27 at output/refs/B.png"⟩ := by
  constructor
  · exact (autoload_ref_map (fun _ => true) [sceneRefAB]).1 (fun c _ => rfl)
  · exact (autoload_ref_map (fun p => p == refPath "A") [sceneRefAB]).2 "B" (by decide)

/-- Claim C8: with `provided_refs` absent and autoload false, the
builder fails with the references-required 400 client error whenever
at least one character is referenced anywhere, and returns the empty
map when no character is referenced. -/
theorem refs_required_no_autoload (fs : String → Bool) (scenes : List Scene) :
    ((∃ s ∈ scenes, ∃ c, c ∈ s.reference_images) →
       _build_character_ref_map fs scenes none false
         = .error ⟨400, "Reference images required but no character_refs provided."⟩)
    ∧ ((∀ s ∈ scenes, s.reference_images = []) →
       _build_character_ref_map fs scenes none false = .ok []) := by
  constructor
  · rintro ⟨s, hs, c, hc⟩
    apply build_none_no_autoload_err
    intro hnil
    have hmem : c ∈ _collect_referenced_characters scenes :=
      (mem_collect scenes c).mpr ⟨s, hs, hc⟩
    rw [hnil] at hmem
    exact List.not_mem_nil _ hmem
  · intro h
    exact build_none_no_autoload_ok fs scenes (collect_eq_nil scenes h)

/-- Witness for claim C8 at concrete inputs. -/
theorem refs_required_no_autoload_witness :
    _build_character_ref_map (fun _ => true) [sceneRefX] none false
        = .error ⟨400, "Reference images required but no character_refs provided."⟩
    ∧ _build_character_ref_map (fun _ => true) [sceneNoRefs] none false = .ok [] := by
  constructor
  · exact (refs_required_no_autoload (fun _ => true) [sceneRefX]).1
      ⟨sceneRefX, by simp, "X", by simp [sceneRefX]⟩
  · exact (refs_required_no_autoload (fun _ => true) [sceneNoRefs]).2 (by
      intro s hs
      simp only [List.mem_singleton] at hs
      rw [hs]
      rfl)

/-- Claim C10: passing an explicitly empty `character_refs` map behaves
exactly like omitting it, both at the builder level (for every scene
list, filesystem and autoload flag) and through the scene-videos
route; in particular an empty map with autoload true triggers
filesystem auto-derivation, not a missing-names validation error. -/
theorem empty_refs_equals_absent :
    (∀ (fs : String → Bool) (scenes : List Scene) (autoload : Bool),
       _build_character_ref_map fs scenes (some []) autoload
         = _build_character_ref_map fs scenes none autoload)
    ∧ (∀ (gsv : String → String → List Scene → RefMap → Except DelegateError (List String))
         (fs : String → Bool) (secret : SecretState) (request : SceneVideoRequest),
       request.character_refs = some [] →
       create_scene_videos gsv fs secret request
         = create_scene_videos gsv fs secret { request with character_refs := none }) := by
  constructor
  · intro fs scenes autoload
    rfl
  · intro gsv fs secret request h
    obtain ⟨scenes, ik, vk, cr, ar⟩ := request
    have h2 : cr = some [] := h
    subst h2
    rfl

/-- Witness for claim C10 at a concrete request carrying
`character_refs = {}`. -/
theorem empty_refs_equals_absent_witness :
    create_scene_videos gsvOkEmpty (fun _ => true) .absent sceneReqEmptyRefs
      = create_scene_videos gsvOkEmpty (fun _ => true) .absent
          { sceneReqEmptyRefs with character_refs := none } :=
  empty_refs_equals_absent.2 gsvOkEmpty (fun _ => true) .absent sceneReqEmptyRefs rfl

/-! ## Claim theorems: secret loader and key resolver -/

/-- Claim C7: `_load_default_api_key` returns nothing (without error)
when the secret file is absent; when the file exists but its content
is not parseable as JSON it fails with a 500 server error describing
the parse failure; otherwise it returns the `project_api_key` field
when present, else nothing. -/
theorem load_default_key_behavior :
    _load_default_api_key .absent = .ok none
    ∧ (∀ errMsg, _load_default_api_key (.malformed errMsg)
        = .error ⟨500, "Invalid secret.json format: " ++ errMsg⟩)
    ∧ (∀ k, _load_default_api_key (.parsed (some k)) = .ok (some k))
    ∧ _load_default_api_key (.parsed none) = .ok none :=
  ⟨rfl, fun _ => rfl, fun _ => rfl, rfl⟩

/-- Claim C6 (amended): `_resolve_api_key` returns a non-empty
`provided` verbatim; otherwise it returns the secret-file default key
when that loads successfully and is non-empty; when the default loads
as absent or empty it raises the 400 client error naming `key_name`;
and when the secret file is malformed the loader's 500 server error
propagates instead of a 400. -/
theorem resolve_api_key_cases (secret : SecretState) (provided : Option String)
    (key_name : String) :
    (pyTruthy provided = true →
       _resolve_api_key secret provided key_name = .ok (provided.getD ""))
    ∧ (pyTruthy provided = false → ∀ d, _load_default_api_key secret = .ok (some d) →
        d ≠ "" → _resolve_api_key secret provided key_name = .ok d)
    ∧ (pyTruthy provided = false → ∀ d, _load_default_api_key secret = .ok d →
        pyTruthy d = false →
        _resolve_api_key secret provided key_name
          = .error ⟨400, key_name
              ++ " is required. Provide it in the request body or secret.json."⟩)
    ∧ (pyTruthy provided = false → ∀ e, _load_default_api_key secret = .error e →
        _resolve_api_key secret provided key_name = .error e) := by
  refine ⟨?_, ?_, ?_, ?_⟩
  · intro h
    simp [_resolve_api_key, h]
  · intro h d hd hne
    have hie : d.isEmpty = false := by
      rw [Bool.eq_false_iff, ne_eq, String.isEmpty_iff]
      exact hne
    have ht : pyTruthy (some d) = true := by simp [pyTruthy, hie]
    simp [_resolve_api_key, h, hd, ht]
  · intro h d hd hf
    simp [_resolve_api_key, h, hd, hf]
  · intro h e he
    simp [_resolve_api_key, h, he]

/-- Witness for claim C6 (amended) at concrete inputs: explicit key
wins; the secret default is used when no key is provided; absence of
both yields the 400 naming the key; a malformed file propagates the
500. -/
theorem resolve_api_key_cases_witness :
    _resolve_api_key .absent (some "k1") "image_api_key" = .ok "k1"
    ∧ _resolve_api_key (.parsed (some "k1")) none "image_api_key" = .ok "k1"
    ∧ _resolve_api_key .absent none "image_api_key"
        = .error ⟨400, "image_api_key is required. Provide it in the request body or secret.json."⟩
    ∧ _resolve_api_key (.malformed "boom") none "image_api_key"
        = .error ⟨500, "Invalid secret.json format: boom"⟩ := by
  refine ⟨?_, ?_, ?_, ?_⟩
  · exact (resolve_api_key_cases .absent (some "k1") "image_api_key").1 rfl
  · exact (resolve_api_key_cases (.parsed (some "k1")) none "image_api_key").2.1
      rfl "k1" rfl (by decide)
  · exact (resolve_api_key_cases .absent none "image_api_key").2.2.1 rfl none rfl rfl
  · exact (resolve_api_key_cases (.malformed "boom") none "image_api_key").2.2.2 rfl
      ⟨500, "Invalid secret.json format: boom"⟩ rfl

/-- Counterexample to claim C6 as stated: with no provided key and a
malformed secret file (so no default key exists), `_resolve_api_key`
surfaces the loader's 500 server error, not a 400 client error. -/
theorem resolve_api_key_malformed_cex : ¬ resolveClaimAsStated := by
  intro h
  obtain ⟨msg, hmsg⟩ := h (.malformed "boom") none "image_api_key" rfl (by
    rintro ⟨d, hd, -⟩
    exact absurd hd (by simp [_load_default_api_key]))
  have h2 : (Except.error (⟨500, "Invalid secret.json format: boom"⟩ : HTTPException)
      : Except HTTPException String) = .error ⟨400, msg⟩ := hmsg
  have h3 := congrArg HTTPException.status_code (Except.error.inj h2)
  simp at h3

/-- Claim C5 (amended): the resolved video key of the scene-videos and
trailer routes, `_resolve_api_key secret (veo or image) "veo_api_key"`,
is determined first-match-wins over the candidate sources in the order
veo override, image override, secret-file default; in particular it
equals the resolved image key whenever the veo override is absent or
empty, even when a secret-file default exists. -/
theorem video_key_first_match (secret : SecretState) (veo image : Option String) :
    (pyTruthy veo = true →
       _resolve_api_key secret (pyOrOpt veo image) "veo_api_key" = .ok (veo.getD ""))
    ∧ (pyTruthy veo = false →
       _resolve_api_key secret (pyOrOpt veo image) "veo_api_key"
         = _resolve_api_key secret image "veo_api_key")
    ∧ (pyTruthy veo = false → ∀ k,
       _resolve_api_key secret image "image_api_key" = .ok k →
       _resolve_api_key secret (pyOrOpt veo image) "veo_api_key" = .ok k)
    ∧ (pyTruthy veo = false → pyTruthy image = false → ∀ d,
       _load_default_api_key secret = .ok d →
       _resolve_api_key secret (pyOrOpt veo image) "veo_api_key"
         = (if pyTruthy d then .ok (d.getD "")
            else .error ⟨400,
              "veo_api_key is required. Provide it in the request body or secret.json."⟩)) := by
  refine ⟨?_, ?_, ?_, ?_⟩
  · intro h
    simp [pyOrOpt, h, _resolve_api_key]
  · intro h
    simp [pyOrOpt, h]
  · intro h k hk
    simp only [pyOrOpt, h, Bool.false_eq_true, if_false]
    by_cases ht : pyTruthy image = true
    · simp only [_resolve_api_key, ht, if_true] at hk ⊢
      exact hk
    · have ht2 : pyTruthy image = false := by rwa [Bool.eq_false_iff, ne_eq]
      cases hl : _load_default_api_key secret with
      | error e => simp [_resolve_api_key, ht2, hl] at hk
      | ok d =>
        by_cases hd : pyTruthy d = true
        · simp only [_resolve_api_key, ht2, Bool.false_eq_true, if_false, hl,
            hd, if_true] at hk ⊢
          exact hk
        · have hd2 : pyTruthy d = false := by rwa [Bool.eq_false_iff, ne_eq]
          simp [_resolve_api_key, ht2, hl, hd2] at hk
  · intro h hi d hd
    simp [pyOrOpt, h, _resolve_api_key, hi, hd]

/-- Witness for claim C5 (amended) at concrete inputs: veo override
wins; with the veo override absent the video key equals the resolved
image key; with both overrides absent the secret default is used. -/
theorem video_key_first_match_witness :
    _resolve_api_key (.parsed (some "defkey")) (pyOrOpt (some "veokey") (some "imgkey"))
        "veo_api_key" = .ok "veokey"
    ∧ _resolve_api_key (.parsed (some "defkey")) (pyOrOpt none (some "imgkey"))
        "veo_api_key" = .ok "imgkey"
    ∧ _resolve_api_key (.parsed (some "defkey")) (pyOrOpt none none)
        "veo_api_key" = .ok "defkey" := by
  refine ⟨?_, ?_, ?_⟩
  · exact (video_key_first_match (.parsed (some "defkey")) (some "veokey")
      (some "imgkey")).1 rfl
  · exact (video_key_first_match (.parsed (some "defkey")) none (some "imgkey")).2.2.1
      rfl "imgkey" rfl
  · exact (video_key_first_match (.parsed (some "defkey")) none none).2.2.2
      rfl rfl (some "defkey") rfl

/-- Counterexample to claim C5 as stated: with the veo override absent
but a non-empty secret-file default present, the code still resolves
the video key to the image override, contradicting the claim that the
fallback to the image key happens exactly when the override and the
default are both absent. -/
theorem video_key_claim_cex : ¬ videoKeyClaimAsStated := by
  intro h
  have h2 : (Except.ok "imgkey" : Except HTTPException String) = .ok "defkey" :=
    h "defkey" none (some "imgkey") (by decide) rfl
  exact absurd (Except.ok.inj h2) (by decide)

/-! ## Claim theorems: route handlers -/

/-- Claim C1 (amended): for the scene-videos route the invariant holds:
whenever the handler reaches the scene-video delegate, the resolved
reference map covers every character referenced by any scene, and any
violation is surfaced by `_build_character_ref_map` as a 400 client
error returned before (and independently of) the delegate; the trailer
route performs no such check, so the invariant does not extend to it
(see the counterexample). -/
theorem scene_videos_ref_invariant
    (gsv : String → String → List Scene → RefMap → Except DelegateError (List String))
    (fs : String → Bool) (secret : SecretState) (request : SceneVideoRequest)
    (image_api_key veo_api_key : String)
    (hik : _resolve_api_key secret request.image_api_key "image_api_key"
        = .ok image_api_key)
    (hvk : _resolve_api_key secret (pyOrOpt request.veo_api_key request.image_api_key)
        "veo_api_key" = .ok veo_api_key) :
    (∀ refs, _build_character_ref_map fs request.scenes request.character_refs
          request.autoload_refs = .ok refs →
       (create_scene_videos gsv fs secret request
          = match gsv image_api_key veo_api_key request.scenes refs with
            | .error (.valueError m) => .error ⟨400, m⟩
            | .error (.otherError m) => .error ⟨500, m⟩
            | .ok videos => .ok ⟨videos⟩)
       ∧ ∀ c, (∃ s ∈ request.scenes, c ∈ s.reference_images) → hasKey refs c = true)
    ∧ (∀ e, _build_character_ref_map fs request.scenes request.character_refs
          request.autoload_refs = .error e →
       e.status_code = 400 ∧ create_scene_videos gsv fs secret request = .error e) := by
  constructor
  · intro refs hb
    constructor
    · simp [create_scene_videos, hik, hvk, hb]
    · intro c hc
      exact build_ok_covers fs request.scenes request.character_refs
        request.autoload_refs refs hb c ((mem_collect request.scenes c).mpr hc)
  · intro e hb
    refine ⟨build_error_status fs request.scenes request.character_refs
      request.autoload_refs e hb, ?_⟩
    simp [create_scene_videos, hik, hvk, hb]

/-- Witness for claim C1 (amended) at a concrete scene-videos request:
the reference map reaching the delegate covers the referenced
character `X`. -/
theorem scene_videos_ref_invariant_witness :
    hasKey [("X", "output/refs/X.png")] "X" = true :=
  ((scene_videos_ref_invariant gsvOkEmpty (fun _ => true) .absent sceneReqX
      "imgkey" "imgkey" rfl rfl).1 [("X", "output/refs/X.png")] rfl).2 "X"
    ⟨sceneRefX, by simp [sceneReqX], by simp [sceneRefX]⟩

/-- Counterexample to claim C1 as stated: on the trailer route, with a
request whose scenes reference `X` and an empty design list, the
character-reference delegate returns an empty map, the wrapper passes
it to the scene-video delegate unchecked, and the violation surfaces
as a delegate-time failure instead of a wrapper client error emitted
before the delegate call. -/
theorem trailer_ref_invariant_cex : ¬ trailerDelegateGuardClaim := by
  intro h
  exact h gcrEmptyOk stitchConst .absent trailerReqX rfl

/-- Claim C9: in every generation route handler a delegate failure
signalling invalid input (a `ValueError`) is mapped to a 400 client
error carrying the delegate's message, and any other delegate failure
is mapped to a 500 server error carrying the message verbatim; the
rule applies uniformly at every delegate call site of the three
routes, including stitching inside the trailer route. -/
theorem delegate_error_mapping_uniform :
    (∀ (gcr : String → List CharacterDesign → Except DelegateError RefMap)
       (secret : SecretState) (request : CharacterReferenceRequest)
       (image_api_key m : String),
       _resolve_api_key secret request.image_api_key "image_api_key" = .ok image_api_key →
       (gcr image_api_key request.character_designs = .error (.valueError m) →
          create_character_references gcr secret request = .error ⟨400, m⟩)
       ∧ (gcr image_api_key request.character_designs = .error (.otherError m) →
          create_character_references gcr secret request = .error ⟨500, m⟩))
    ∧ (∀ (gsv : String → String → List Scene → RefMap → Except DelegateError (List String))
         (fs : String → Bool) (secret : SecretState) (request : SceneVideoRequest)
         (image_api_key veo_api_key : String) (refs : RefMap) (m : String),
       _resolve_api_key secret request.image_api_key "image_api_key" = .ok image_api_key →
       _resolve_api_key secret (pyOrOpt request.veo_api_key request.image_api_key)
           "veo_api_key" = .ok veo_api_key →
       _build_character_ref_map fs request.scenes request.character_refs
           request.autoload_refs = .ok refs →
       (gsv image_api_key veo_api_key request.scenes refs = .error (.valueError m) →
          create_scene_videos gsv fs secret request = .error ⟨400, m⟩)
       ∧ (gsv image_api_key veo_api_key request.scenes refs = .error (.otherError m) →
          create_scene_videos gsv fs secret request = .error ⟨500, m⟩))
    ∧ (∀ (gcr : String → List CharacterDesign → Except DelegateError RefMap)
         (gsv : String → String → List Scene → RefMap → Except DelegateError (List String))
         (stitch : List String → Except DelegateError String)
         (secret : SecretState) (request : TrailerGenerationRequest)
         (image_api_key veo_api_key m : String),
       _resolve_api_key secret request.image_api_key "image_api_key" = .ok image_api_key →
       _resolve_api_key secret (pyOrOpt request.veo_api_key request.image_api_key)
           "veo_api_key" = .ok veo_api_key →
       ((gcr image_api_key request.character_designs = .error (.valueError m) →
           generate_trailer gcr gsv stitch secret request = .error ⟨400, m⟩)
        ∧ (gcr image_api_key request.character_designs = .error (.otherError m) →
           generate_trailer gcr gsv stitch secret request = .error ⟨500, m⟩)
        ∧ (∀ refs, gcr image_api_key request.character_designs = .ok refs →
           ((gsv image_api_key veo_api_key request.scenes refs = .error (.valueError m) →
               generate_trailer gcr gsv stitch secret request = .error ⟨400, m⟩)
            ∧ (gsv image_api_key veo_api_key request.scenes refs = .error (.otherError m) →
               generate_trailer gcr gsv stitch secret request = .error ⟨500, m⟩)
            ∧ (∀ paths, gsv image_api_key veo_api_key request.scenes refs = .ok paths →
               request.stitch_trailer = true →
               ((stitch paths = .error (.valueError m) →
                   generate_trailer gcr gsv stitch secret request = .error ⟨400, m⟩)
                ∧ (stitch paths = .error (.otherError m) →
                   generate_trailer gcr gsv stitch secret request = .error ⟨500, m⟩))))))) := by
  refine ⟨?_, ?_, ?_⟩
  · intro gcr secret request image_api_key m hik
    constructor
    · intro hg
      simp [create_character_references, hik, hg]
    · intro hg
      simp [create_character_references, hik, hg]
  · intro gsv fs secret request image_api_key veo_api_key refs m hik hvk hb
    constructor
    · intro hg
      simp [create_scene_videos, hik, hvk, hb, hg]
    · intro hg
      simp [create_scene_videos, hik, hvk, hb, hg]
  · intro gcr gsv stitch secret request image_api_key veo_api_key m hik hvk
    refine ⟨?_, ?_, ?_⟩
    · intro hg
      simp [generate_trailer, hik, hvk, hg]
    · intro hg
      simp [generate_trailer, hik, hvk, hg]
    · intro refs hr
      refine ⟨?_, ?_, ?_⟩
      · intro hg
        simp [generate_trailer, hik, hvk, hr, hg]
      · intro hg
        simp [generate_trailer, hik, hvk, hr, hg]
      · intro paths hp hst
        constructor
        · intro hg
          simp [generate_trailer, hik, hvk, hr, hp, hst, hg]
        · intro hg
          simp [generate_trailer, hik, hvk, hr, hp, hst, hg]

/-- Witness for claim C9 at concrete inputs: each error class of each
delegate is mapped as stated on all three routes. -/
theorem delegate_error_mapping_uniform_witness :
    create_character_references (fun _ _ => .error (.valueError "bad designs"))
        (.parsed (some "k")) { character_designs := [], image_api_key := some "k" }
      = .error ⟨400, "bad designs"⟩
    ∧ create_scene_videos (fun _ _ _ _ => .error (.otherError "quota"))
        (fun _ => true) .absent
        { scenes := [sceneNoRefs], image_api_key := some "k" }
      = .error ⟨500, "quota"⟩
    ∧ generate_trailer gcrEmptyOk (fun _ _ _ _ => .ok ["output/scenes/scene_1.mp4"])
        (fun _ => .error (.otherError "ffmpeg crashed")) .absent
        { character_designs := [], scenes := [sceneNoRefs],
          image_api_key := some "k", veo_api_key := none, stitch_trailer := true }
      = .error ⟨500, "ffmpeg crashed"⟩ := by
  refine ⟨?_, ?_, ?_⟩
  · exact (delegate_error_mapping_uniform.1
      (fun _ _ => .error (.valueError "bad designs")) (.parsed (some "k"))
      { character_designs := [], image_api_key := some "k" } "k" "bad designs" rfl).1 rfl
  · exact (delegate_error_mapping_uniform.2.1
      (fun _ _ _ _ => .error (.otherError "quota")) (fun _ => true) .absent
      { scenes := [sceneNoRefs], image_api_key := some "k" } "k" "k" [] "quota"
      rfl rfl rfl).2 rfl
  · exact (((delegate_error_mapping_uniform.2.2 gcrEmptyOk
      (fun _ _ _ _ => .ok ["output/scenes/scene_1.mp4"])
      (fun _ => .error (.otherError "ffmpeg crashed")) .absent
      { character_designs := [], scenes := [sceneNoRefs],
        image_api_key := some "k", veo_api_key := none, stitch_trailer := true }
      "k" "k" "ffmpeg crashed" rfl rfl).2.2 [] rfl).2.2
      ["output/scenes/scene_1.mp4"] rfl rfl).2 rfl
